import Mathlib

/-!
Verification of the Panasonic Comfort Cloud Homey app's core API-access layer:
a shallow embedding of `Mappers.ts`, `ComfortCloudClient.ts`, `RateLimiter.ts`
and `PollScheduler.ts`, with theorems about write-payload construction, token
parsing, the retry pipeline, the rate limiter and the poll scheduler.
-/

namespace ComfortCloud

/- ### Mappers.ts : normalized state model and write-payload construction -/

inductive ThermostatMode where
  | auto | heat | dry | cool | fan
deriving DecidableEq, Repr

/-- `MODE_REVERSE_MAP` from `Mappers.ts` (inverse of `MODE_MAP`). -/
def MODE_REVERSE_MAP : ThermostatMode → Nat
  | .auto => 0
  | .heat => 1
  | .dry => 2
  | .cool => 3
  | .fan => 4

inductive FanSpeed where
  | auto | low | medium | high
deriving DecidableEq, Repr

/-- `FAN_SPEED_REVERSE_MAP` from `Mappers.ts` (inverse of `FAN_SPEED_MAP`). -/
def FAN_SPEED_REVERSE_MAP : FanSpeed → Nat
  | .auto => 0
  | .low => 1
  | .medium => 2
  | .high => 3

inductive SwingMode where
  | off | vertical | horizontal | both
deriving DecidableEq, Repr

/-- `clamp(value, min?, max?)` from `Mappers.ts`: apply the lower bound first
(when present), then the upper bound (when present). -/
def clamp (value : Int) (lo hi : Option Int) : Int :=
  let v1 := match lo with
    | some l => max l value
    | none => value
  match hi with
  | some h => min h v1
  | none => v1

/-- The fields of the normalized `DeviceState` that `createWritePayload` reads. -/
structure DeviceState where
  «on» : Bool
  thermostatMode : ThermostatMode
  targetTemperature : Int
  minTemperature : Option Int := none
  maxTemperature : Option Int := none
  fanSpeed : Option FanSpeed := none
  swingMode : Option SwingMode := none
deriving DecidableEq, Repr

/-- `Partial<DeviceState>`: every field may be left unspecified. -/
structure DeviceStatePatch where
  «on» : Option Bool := none
  thermostatMode : Option ThermostatMode := none
  targetTemperature : Option Int := none
  minTemperature : Option Int := none
  maxTemperature : Option Int := none
  fanSpeed : Option FanSpeed := none
  swingMode : Option SwingMode := none
deriving DecidableEq, Repr

/-- The outgoing `parameters` record built by `createWritePayload`; a `none`
field means the key is absent from the payload object. -/
structure WritePayload where
  operate : Option Nat := none
  operationMode : Option Nat := none
  targetTemp : Option Int := none
  fanSpeed : Option Nat := none
  airSwingUD : Option Nat := none
  airSwingLR : Option Nat := none
deriving DecidableEq, Repr

/-- `createWritePayload(patch, currentState)` from `Mappers.ts`: each payload
key is set only when the corresponding patch field is defined; the cached
`currentState` is consulted only for the min/max clamping bounds of
`targetTemp` (and only when the patch does not carry those bounds itself). -/
def createWritePayload (patch : DeviceStatePatch) (currentState : Option DeviceState) :
    WritePayload :=
  let p0 : WritePayload := {}
  let p1 := match patch.«on» with
    | some b => { p0 with operate := some (if b then 1 else 0) }
    | none => p0
  let p2 := match patch.thermostatMode with
    | some m => { p1 with operationMode := some (MODE_REVERSE_MAP m) }
    | none => p1
  let p3 := match patch.targetTemperature with
    | some t =>
        let lo := patch.minTemperature.orElse fun _ => currentState.bind (·.minTemperature)
        let hi := patch.maxTemperature.orElse fun _ => currentState.bind (·.maxTemperature)
        { p2 with targetTemp := some (clamp t lo hi) }
    | none => p2
  let p4 := match patch.fanSpeed with
    | some f => { p3 with fanSpeed := some (FAN_SPEED_REVERSE_MAP f) }
    | none => p3
  match patch.swingMode with
  | some .off => { p4 with airSwingUD := some 0, airSwingLR := some 0 }
  | some .vertical => { p4 with airSwingUD := some 1, airSwingLR := some 0 }
  | some .horizontal => { p4 with airSwingUD := some 0, airSwingLR := some 1 }
  | some .both => { p4 with airSwingUD := some 1, airSwingLR := some 1 }
  | none => p4

/-- The per-device last-known-state cache of `ComfortCloudClient`
(`stateCache : Map<string, DeviceState>`), with `Map.get`. -/
def stateCacheGet (cache : List (String × DeviceState)) (deviceId : String) :
    Option DeviceState :=
  (cache.find? fun entry => entry.1 = deviceId).map (·.2)

/-- `writeState(deviceId, patch)`'s payload construction: it looks the device
up in the state cache and hands the result to `createWritePayload`. -/
def writeStatePayload (cache : List (String × DeviceState)) (deviceId : String)
    (patch : DeviceStatePatch) : WritePayload :=
  createWritePayload patch (stateCacheGet cache deviceId)

/- ### ComfortCloudClient.ts : token parsing and session refresh -/

structure AuthTokens where
  accessToken : String
  refreshToken : String
  expiresAt : Int
  userId : String
deriving DecidableEq, Repr

/-- The shape of login/refresh response bodies read by `parseTokens`;
`userNestedId` stands for `response.user?.id`. -/
structure LoginResponse where
  uToken : Option String := none
  accessToken : Option String := none
  refreshToken : Option String := none
  expiresIn : Option Int := none
  expires_in : Option Int := none
  userId : Option String := none
  userNestedId : Option String := none
deriving DecidableEq, Repr

/-- `parseTokens(response, previous?)` from `ComfortCloudClient.ts`, with the
call time `now` (`Date.now()`) made explicit.  `!accessToken || !refreshToken`
is JavaScript falsiness: both a missing field and an empty string throw. -/
def parseTokens (response : LoginResponse) (previous : Option AuthTokens) (now : Int) :
    Except String AuthTokens :=
  let access? := response.uToken.orElse fun _ => response.accessToken
  let refresh? := response.refreshToken.orElse fun _ => previous.map (·.refreshToken)
  match access?, refresh? with
  | some access, some refreshVal =>
      if access.isEmpty || refreshVal.isEmpty then
        .error "Comfort Cloud authentication failed"
      else
        let expiresIn := (response.expiresIn.orElse fun _ => response.expires_in).getD 3600
        let userId := ((response.userId.orElse fun _ => response.userNestedId).orElse
          fun _ => previous.map (·.userId)).getD "unknown"
        .ok {
          accessToken := access
          refreshToken := refreshVal
          userId := userId
          expiresAt := now + max (expiresIn - 60) 60 * 1000 }
  | _, _ => .error "Comfort Cloud authentication failed"

/-- `refresh(tokens)`: parse the response against the previous tokens; on
success `setTokens` replaces the cached session with the parsed one, on a
parse failure the exception propagates before `setTokens` runs, so the cached
session stays `previous`.  Returns the thrown-or-returned value together with
the cached session after the call. -/
def refreshModel (previous : AuthTokens) (response : LoginResponse) (now : Int) :
    Except String AuthTokens × AuthTokens :=
  match parseTokens response (some previous) now with
  | .ok next => (.ok next, next)
  | .error e => (.error e, previous)

/- ### ComfortCloudClient.ts : the request/retry pipeline -/

/-- Outcome of one underlying HTTP attempt: success with a decoded body, or an
axios failure carrying `error.response?.status` (a network failure or
transport timeout has no response, hence no status) and `error.message`. -/
inductive HttpOutcome where
  | success (value : Nat)
  | failure (status : Option Nat) (message : String)
deriving DecidableEq, Repr

inductive RequestError where
  /-- the axios error rethrown by `request` (carries the last status/message) -/
  | httpError (status : Option Nat) (message : String)
  /-- the scripted outcome list was exhausted (never reached in the claims) -/
  | noResponse
deriving DecidableEq, Repr

/-- What one call to `request` does, given a script of HTTP outcomes: the
value returned or error thrown, the backoff waits performed (in order), and
the number of token refreshes forced by the 401 branch. -/
structure RequestTrace where
  result : Except RequestError Nat
  waits : List Nat
  refreshes : Nat
deriving Repr

/-- `Math.min(1000 * Math.pow(2, attempt), 15000)` from `request`. -/
def backoffDelay (attempt : Nat) : Nat :=
  min (1000 * 2 ^ attempt) 15000

/-- `request(config, { requiresAuth, attempt })` from `ComfortCloudClient.ts`:
each call consumes one scripted HTTP outcome.  On failure, the 401 branch
(requires auth, attempt < 2) forces a refresh via `handleUnauthorized` and
retries with attempt+1; the 429/5xx branch (`status === 429 ||
(status ?? 0) >= 500`, attempt < 4) waits `backoffDelay attempt` and retries
with attempt+1; otherwise the error is rethrown. -/
def runRequest (requiresAuth : Bool) (attempt : Nat) : List HttpOutcome → RequestTrace
  | [] => { result := .error .noResponse, waits := [], refreshes := 0 }
  | .success v :: _ => { result := .ok v, waits := [], refreshes := 0 }
  | .failure status msg :: rest =>
      if status = some 401 ∧ requiresAuth = true ∧ attempt < 2 then
        let t := runRequest requiresAuth (attempt + 1) rest
        { t with refreshes := t.refreshes + 1 }
      else if (status = some 429 ∨ 500 ≤ status.getD 0) ∧ attempt < 4 then
        let t := runRequest requiresAuth (attempt + 1) rest
        { t with waits := backoffDelay attempt :: t.waits }
      else
        { result := .error (.httpError status msg), waits := [], refreshes := 0 }

/-- `tokens.expiresAt - Date.now() < 60 * 1000` from `ensureAuthenticated`. -/
def expiresSoon (tokens : AuthTokens) (now : Int) : Bool :=
  tokens.expiresAt - now < 60 * 1000

/-- Number of refresh calls `ensureAuthenticated` issues: it refreshes only
when the cached session is expiring within the 60 s window (and throws,
refreshing nothing, when no tokens exist). -/
def ensureAuthenticatedRefreshes (tokens : Option AuthTokens) (now : Int) : Nat :=
  match tokens with
  | none => 0
  | some tk => if expiresSoon tk now then 1 else 0

/-- Number of refresh calls `handleUnauthorized` issues: it calls
`this.refresh(tokens)` unconditionally — no expiry check — whenever tokens
exist (and throws, refreshing nothing, when they do not). -/
def handleUnauthorizedRefreshes (tokens : Option AuthTokens) : Nat :=
  match tokens with
  | none => 0
  | some _ => 1

/- ### RateLimiter.ts -/

structure RateLimiterConfig where
  maxConcurrent : Nat
  minInterval : Nat
  maxQueueSize : Option Nat
deriving DecidableEq, Repr

/-- The `RateLimiter` constructor: `Math.max(1, options.maxConcurrent ?? 2)`,
`Math.max(0, options.minInterval ?? 200)`, `options.maxQueueSize` as given. -/
def mkRateLimiter (maxConcurrent? minInterval? : Option Int) (maxQueueSize? : Option Nat) :
    RateLimiterConfig :=
  { maxConcurrent := (max 1 (maxConcurrent?.getD 2)).toNat
    minInterval := (max 0 (minInterval?.getD 200)).toNat
    maxQueueSize := maxQueueSize? }

/-- The limiter's mutable fields: the FIFO queue of queued operation ids,
`activeCount`, and `lastStart`. -/
structure RateLimiterState where
  queue : List Nat
  activeCount : Nat
  lastStart : Int
deriving DecidableEq, Repr

def initialRateLimiterState : RateLimiterState :=
  { queue := [], activeCount := 0, lastStart := 0 }

/-- One call to `process()` at time `now`: return unchanged when the queue is
empty, when `activeCount >= maxConcurrent`, or when the pacing wait
`minInterval - (now - lastStart)` is positive (a deferred timer re-invokes
`process` later); otherwise shift the queue head, increment `activeCount`,
record `lastStart := now`, and start the shifted operation. -/
def process (cfg : RateLimiterConfig) (s : RateLimiterState) (now : Int) :
    RateLimiterState × Option Nat :=
  match s.queue with
  | [] => (s, none)
  | op :: rest =>
      if cfg.maxConcurrent ≤ s.activeCount then (s, none)
      else if now - s.lastStart < (cfg.minInterval : Int) then (s, none)
      else ({ queue := rest, activeCount := s.activeCount + 1, lastStart := now }, some op)

/-- `if (this.maxQueueSize && this.queue.length >= this.maxQueueSize)`:
JavaScript truthiness skips the check when `maxQueueSize` is unset or 0. -/
def queueFullCheck (cfg : RateLimiterConfig) (s : RateLimiterState) : Bool :=
  match cfg.maxQueueSize with
  | some m => m != 0 && decide (m ≤ s.queue.length)
  | none => false

inductive ScheduleResult where
  /-- `throw new Error('Rate limiter queue full')` -/
  | queueFull
  /-- enqueued; `process()` ran and may have started an operation -/
  | enqueued (started : Option Nat)
deriving DecidableEq, Repr

/-- `schedule(fn)` at time `now`: the queue-full check throws before anything
is enqueued; otherwise the operation is pushed to the back of the queue and
`process()` runs once. -/
def schedule (cfg : RateLimiterConfig) (s : RateLimiterState) (op : Nat) (now : Int) :
    RateLimiterState × ScheduleResult :=
  if queueFullCheck cfg s then (s, .queueFull)
  else
    let enq := { s with queue := s.queue ++ [op] }
    let step := process cfg enq now
    (step.1, .enqueued step.2)

/-- The `.finally` of a running operation: decrement `activeCount`, then
re-evaluate the queue via `process()`. -/
def complete (cfg : RateLimiterConfig) (s : RateLimiterState) (now : Int) :
    RateLimiterState × Option Nat :=
  process cfg { s with activeCount := s.activeCount - 1 } now

/-- States the limiter can actually be in: the initial state, and everything
reachable through `schedule` calls, deferred pacing-timer fires (`process`),
and completions of running operations. -/
inductive RateLimiterReachable (cfg : RateLimiterConfig) : RateLimiterState → Prop where
  | init : RateLimiterReachable cfg initialRateLimiterState
  | schedule (s : RateLimiterState) (op : Nat) (now : Int) :
      RateLimiterReachable cfg s → RateLimiterReachable cfg (schedule cfg s op now).1
  | timerFire (s : RateLimiterState) (now : Int) :
      RateLimiterReachable cfg s → RateLimiterReachable cfg (process cfg s now).1
  | complete (s : RateLimiterState) (now : Int) :
      RateLimiterReachable cfg s → 0 < s.activeCount →
      RateLimiterReachable cfg (complete cfg s now).1

/- ### PollScheduler.ts -/

/-- A registered task's mutable state: its id, current interval, pending
timer delay (`none` when no timer is pending) and last run timestamp. -/
structure ScheduledTask where
  id : String
  interval : Nat
  timeout : Option Nat := none
  lastRun : Option Nat := none
deriving DecidableEq, Repr

structure PollSchedulerState where
  running : Bool
  tasks : List ScheduledTask
  inFlight : List String
deriving DecidableEq, Repr

/-- `calculateDelay(interval)`: plain interval when jitter is off, otherwise
interval plus a uniformly random extra delay in `[0, jitter)` (the random
draw is passed in as the oracle `rand`). -/
def calculateDelay (jitter : Nat) (interval : Nat) (rand : Nat) : Nat :=
  if jitter = 0 then interval else interval + rand % jitter

def setTaskTimeout (tasks : List ScheduledTask) (tid : String) (t : Option Nat) :
    List ScheduledTask :=
  tasks.map fun task => if task.id = tid then { task with timeout := t } else task

/-- `schedule(task, immediate)`: a no-op when the scheduler is not running;
otherwise arm the task's timer with delay 0 (immediate) or
`calculateDelay(interval)`. -/
def schedulePollTask (jitter : Nat) (s : PollSchedulerState) (tid : String)
    (immediate : Bool) (rand : Nat) : PollSchedulerState :=
  if s.running = false then s
  else
    match s.tasks.find? fun t => t.id = tid with
    | none => s
    | some task =>
        let d := if immediate then 0 else calculateDelay jitter task.interval rand
        { s with tasks := setTaskTimeout s.tasks tid (some d) }

/-- `stop()`: if not running, return; else set `running := false` and
`clearTimeout` every task's pending timer. -/
def stopPoll (s : PollSchedulerState) : PollSchedulerState :=
  if s.running = false then s
  else { running := false
         tasks := s.tasks.map fun t => { t with timeout := none }
         inFlight := s.inFlight }

inductive PollEvent where
  /-- a pending timer for task `tid` fires at time `now` -/
  | timerFire (tid : String) (now : Nat)
  /-- the awaited `task.run()` of an in-flight execution settles; `rand` is
  the jitter draw its `finally` reschedule would use -/
  | finishInFlight (tid : String) (rand : Nat)
deriving DecidableEq, Repr

/-- One scheduler event.  A timer can only fire for a task holding a pending
timer; firing consumes the timer and enters `execute`, which bails out when
the scheduler was stopped, and otherwise stamps `lastRun` and starts the
action (counted as one execution, tracked in `inFlight`).  `finishInFlight`
is `execute`'s `finally`: reschedule with the task's interval only when the
scheduler is still running.  Returns the new state and how many task action
executions started. -/
def stepPoll (jitter : Nat) (s : PollSchedulerState) : PollEvent → PollSchedulerState × Nat
  | .timerFire tid now =>
      match s.tasks.find? fun t => t.id = tid with
      | none => (s, 0)
      | some task =>
          match task.timeout with
          | none => (s, 0)
          | some _ =>
              let s1 := { s with tasks := setTaskTimeout s.tasks tid none }
              if s1.running = false then (s1, 0)
              else
                ({ s1 with
                    tasks := s1.tasks.map fun t =>
                      if t.id = tid then { t with lastRun := some now } else t
                    inFlight := tid :: s1.inFlight }, 1)
  | .finishInFlight tid rand =>
      if tid ∈ s.inFlight then
        let s1 := { s with inFlight := s.inFlight.erase tid }
        (if s1.running then schedulePollTask jitter s1 tid false rand else s1, 0)
      else (s, 0)

/-- Run a sequence of scheduler events, summing the executions started. -/
def runPollEvents (jitter : Nat) (s : PollSchedulerState) :
    List PollEvent → PollSchedulerState × Nat
  | [] => (s, 0)
  | e :: es =>
      let step := stepPoll jitter s e
      let rest := runPollEvents jitter step.1 es
      (rest.1, step.2 + rest.2)

instance instDecidableEqExcept {ε α : Type} [DecidableEq ε] [DecidableEq α] :
    DecidableEq (Except ε α)
  | .ok a, .ok b =>
      if h : a = b then .isTrue (by rw [h]) else .isFalse (by intro hc; cases hc; exact h rfl)
  | .ok _, .error _ => .isFalse (by intro hc; cases hc)
  | .error _, .ok _ => .isFalse (by intro hc; cases hc)
  | .error e, .error f =>
      if h : e = f then .isTrue (by rw [h]) else .isFalse (by intro hc; cases hc; exact h rfl)

/- ### Concrete fixtures used by counterexamples and witnesses -/

/-- A partial write that only turns the device on. -/
def patchOnOnly : DeviceStatePatch := { «on» := some true }

/-- A cached snapshot with known values for every field the patch leaves
unspecified. -/
def cachedStateExample : DeviceState :=
  { «on» := false, thermostatMode := .cool, targetTemperature := 25,
    minTemperature := some 16, maxTemperature := some 30,
    fanSpeed := some .low, swingMode := some .off }

/-- A login/refresh response declaring a 30-second lifetime. -/
def shortLifetimeResponse : LoginResponse :=
  { uToken := some "access", refreshToken := some "refresh", expiresIn := some 30 }

/-- A login/refresh response declaring the usual 3600-second lifetime. -/
def standardLifetimeResponse : LoginResponse :=
  { uToken := some "access", refreshToken := some "refresh", expiresIn := some 3600 }

def standardLifetimeTokens : AuthTokens :=
  { accessToken := "access", refreshToken := "refresh", expiresAt := 3540000,
    userId := "unknown" }

/- ### Helper lemmas -/

/-- `createWritePayload`, written field by field: each payload key mirrors
exactly one patch field, and the cached state enters only through the
clamping bounds of `targetTemp`. -/
theorem createWritePayload_eq (patch : DeviceStatePatch) (cs : Option DeviceState) :
    createWritePayload patch cs =
      { operate := patch.«on».map fun b => if b then 1 else 0
        operationMode := patch.thermostatMode.map MODE_REVERSE_MAP
        targetTemp := patch.targetTemperature.map fun t =>
          clamp t (patch.minTemperature.orElse fun _ => cs.bind (·.minTemperature))
            (patch.maxTemperature.orElse fun _ => cs.bind (·.maxTemperature))
        fanSpeed := patch.fanSpeed.map FAN_SPEED_REVERSE_MAP
        airSwingUD := patch.swingMode.map fun sv => match sv with
          | .off => 0
          | .vertical => 1
          | .horizontal => 0
          | .both => 1
        airSwingLR := patch.swingMode.map fun sv => match sv with
          | .off => 0
          | .vertical => 0
          | .horizontal => 1
          | .both => 1 } := by
  obtain ⟨o, m, t, mn, mx, f, sw⟩ := patch
  cases o <;> cases m <;> cases t <;> cases f <;>
    rcases sw with _ | (_ | _ | _ | _) <;> rfl

/- ### Claims -/

/-- C1: the claim states that fields left unspecified in a partial write's
patch are filled into the outgoing payload from the per-device last-known
state cache.  Counterexample: writing only `on := true` for a device whose
cached snapshot holds a target temperature and a fan speed produces a payload
whose `targetTemp` and `fanSpeed` keys are absent — nothing is merged from
the cache. -/
theorem C1_counterexample :
    writeStatePayload [("dev-1", cachedStateExample)] "dev-1" patchOnOnly =
      { operate := some 1, operationMode := none, targetTemp := none,
        fanSpeed := none, airSwingUD := none, airSwingLR := none } ∧
    cachedStateExample.targetTemperature = 25 ∧
    cachedStateExample.fanSpeed = some FanSpeed.low := by
  refine ⟨rfl, rfl, rfl⟩

/-- C1 (amended): the cached snapshot is used only to supply the min/max
temperature clamping bounds of `targetTemp` (and only when the patch does not
carry those bounds); every payload key whose patch field is unspecified is
absent from the payload, and the payload depends on the cached state only
through its `minTemperature`/`maxTemperature` fields. -/
theorem C1_cache_only_supplies_bounds (patch : DeviceStatePatch) (cur cur' : DeviceState)
    (hmin : cur.minTemperature = cur'.minTemperature)
    (hmax : cur.maxTemperature = cur'.maxTemperature) :
    (patch.«on» = none → (createWritePayload patch (some cur)).operate = none) ∧
    (patch.thermostatMode = none → (createWritePayload patch (some cur)).operationMode = none) ∧
    (patch.targetTemperature = none → (createWritePayload patch (some cur)).targetTemp = none) ∧
    (patch.fanSpeed = none → (createWritePayload patch (some cur)).fanSpeed = none) ∧
    (patch.swingMode = none → (createWritePayload patch (some cur)).airSwingUD = none ∧
      (createWritePayload patch (some cur)).airSwingLR = none) ∧
    createWritePayload patch (some cur) = createWritePayload patch (some cur') := by
  rw [createWritePayload_eq, createWritePayload_eq]
  refine ⟨?_, ?_, ?_, ?_, ?_, ?_⟩
  · intro h; simp [h]
  · intro h; simp [h]
  · intro h; simp [h]
  · intro h; simp [h]
  · intro h; simp [h]
  · simp [Option.bind, hmin, hmax]

theorem C1_cache_only_supplies_bounds_witness :
    (patchOnOnly.«on» = none →
      (createWritePayload patchOnOnly (some cachedStateExample)).operate = none) ∧
    (patchOnOnly.thermostatMode = none →
      (createWritePayload patchOnOnly (some cachedStateExample)).operationMode = none) ∧
    (patchOnOnly.targetTemperature = none →
      (createWritePayload patchOnOnly (some cachedStateExample)).targetTemp = none) ∧
    (patchOnOnly.fanSpeed = none →
      (createWritePayload patchOnOnly (some cachedStateExample)).fanSpeed = none) ∧
    (patchOnOnly.swingMode = none →
      (createWritePayload patchOnOnly (some cachedStateExample)).airSwingUD = none ∧
      (createWritePayload patchOnOnly (some cachedStateExample)).airSwingLR = none) ∧
    createWritePayload patchOnOnly (some cachedStateExample) =
      createWritePayload patchOnOnly (some { cachedStateExample with targetTemperature := 99 }) :=
  C1_cache_only_supplies_bounds patchOnOnly cachedStateExample
    { cachedStateExample with targetTemperature := 99 } rfl rfl

/-- C2: the claim states that `expiresAt` is always issue-time plus
`expiresIn` minus a safety margin of at least 60 seconds, for every
`expiresIn` including lifetimes of 120 seconds or less.  Counterexample: a
response with `expiresIn = 30` parsed at time 0 stores
`expiresAt = 60000` ms, i.e. 30 s *after* the declared expiry, which no
margin ≥ 60 s can produce. -/
theorem C2_counterexample :
    parseTokens shortLifetimeResponse none 0 =
      .ok { accessToken := "access", refreshToken := "refresh",
            expiresAt := 60000, userId := "unknown" } ∧
    ¬ ∃ margin : Int, 60 ≤ margin ∧ (60000 : Int) = 0 + (30 - margin) * 1000 := by
  constructor
  · rfl
  · rintro ⟨m, hm, he⟩
    omega

/-- C2 (amended): `expiresAt` is issue-time plus
`max(expiresIn - 60, 60) * 1000` ms: the 60-second safety margin applies only
when `expiresIn ≥ 120`; for shorter declared lifetimes the stored lifetime is
clamped up to 60 s, so the margin shrinks to `expiresIn - 60` (zero or
negative for `expiresIn ≤ 60`). -/
theorem C2_expiry_clamped_margin (response : LoginResponse) (previous : Option AuthTokens)
    (now expiresIn : Int) (tk : AuthTokens)
    (hin : response.expiresIn = some expiresIn)
    (hok : parseTokens response previous now = .ok tk) :
    tk.expiresAt = now + max (expiresIn - 60) 60 * 1000 ∧
    (120 ≤ expiresIn → tk.expiresAt = now + (expiresIn - 60) * 1000) ∧
    (expiresIn < 120 → tk.expiresAt = now + 60 * 1000) := by
  simp only [parseTokens, hin] at hok
  split at hok
  · rename_i access refreshVal heq
    split at hok
    · cases hok
    · simp only [Except.ok.injEq] at hok
      subst hok
      refine ⟨rfl, ?_, ?_⟩
      · intro h
        show now + max (expiresIn - 60) 60 * 1000 = now + (expiresIn - 60) * 1000
        rw [max_eq_left (by omega)]
      · intro h
        show now + max (expiresIn - 60) 60 * 1000 = now + 60 * 1000
        rw [max_eq_right (by omega)]
  · cases hok

theorem C2_expiry_clamped_margin_witness :
    standardLifetimeTokens.expiresAt = 0 + max ((3600 : Int) - 60) 60 * 1000 ∧
    (120 ≤ (3600 : Int) → standardLifetimeTokens.expiresAt = 0 + (3600 - 60) * 1000) ∧
    ((3600 : Int) < 120 → standardLifetimeTokens.expiresAt = 0 + 60 * 1000) :=
  C2_expiry_clamped_margin standardLifetimeResponse none 0 3600 standardLifetimeTokens
    rfl (by decide)

/-- C5: the claim states that a transport-timeout/network failure carrying no
HTTP status is eligible for the 5xx-style backoff-retry path.
Counterexample: with a scripted timeout (no status) followed by a success,
`request` performs no backoff wait and never reaches the second outcome — the
error is rethrown immediately because `(status ?? 0) >= 500` is false for a
missing status. -/
theorem C5_counterexample :
    runRequest true 0 [.failure none "timeout of 20000ms exceeded", .success 7] =
      { result := .error (.httpError none "timeout of 20000ms exceeded"),
        waits := [], refreshes := 0 } := by
  rfl

/-- C5 (amended): a failure with no HTTP status (network error or transport
timeout) is never retried: at any attempt count it is surfaced immediately
with no backoff wait and no refresh, matching the "any other failure is
surfaced immediately" rule. -/
theorem C5_no_status_not_retried (requiresAuth : Bool) (attempt : Nat) (msg : String)
    (rest : List HttpOutcome) :
    runRequest requiresAuth attempt (.failure none msg :: rest) =
      { result := .error (.httpError none msg), waits := [], refreshes := 0 } := by
  simp [runRequest]

/-- A retryable failure (429 or 5xx) below the attempt ceiling: one backoff
wait of `backoffDelay attempt` is prepended and the rest of the script runs
at attempt+1. -/
theorem runRequest_retryable_step (requiresAuth : Bool) (attempt s : Nat) (msg : String)
    (rest : List HttpOutcome) (hs : s = 429 ∨ 500 ≤ s) (hlt : attempt < 4) :
    runRequest requiresAuth attempt (.failure (some s) msg :: rest) =
      { runRequest requiresAuth (attempt + 1) rest with
        waits := backoffDelay attempt ::
          (runRequest requiresAuth (attempt + 1) rest).waits } := by
  have hne : s ≠ 401 := by omega
  rw [runRequest]
  rw [if_neg (by simp [hne]), if_pos (by simp [hs, hlt])]

/-- A 429/5xx failure at attempt 4 exhausts the retry budget: the error is
rethrown with the final status/message, and no further wait occurs. -/
theorem runRequest_budget_exhausted (requiresAuth : Bool) (s : Nat) (msg : String)
    (rest : List HttpOutcome) (hs : s = 429 ∨ 500 ≤ s) :
    runRequest requiresAuth 4 (.failure (some s) msg :: rest) =
      { result := .error (.httpError (some s) msg), waits := [], refreshes := 0 } := by
  have hne : s ≠ 401 := by omega
  rw [runRequest]
  rw [if_neg (by simp [hne]), if_neg (by simp)]

/-- C3: a request failing with 429 or 5xx on five consecutive attempts
retries after backoff waits of exactly 1000, 2000, 4000 and 8000 ms
(min(1000·2^attempt, 15000) for attempts 0–3) and, on the fifth failure,
surfaces the error carrying the last status and message instead of retrying
further. -/
theorem C3_backoff_retry_budget (requiresAuth : Bool) (s0 s1 s2 s3 s4 : Nat)
    (m0 m1 m2 m3 m4 : String)
    (h0 : s0 = 429 ∨ 500 ≤ s0) (h1 : s1 = 429 ∨ 500 ≤ s1)
    (h2 : s2 = 429 ∨ 500 ≤ s2) (h3 : s3 = 429 ∨ 500 ≤ s3)
    (h4 : s4 = 429 ∨ 500 ≤ s4) :
    runRequest requiresAuth 0
      [.failure (some s0) m0, .failure (some s1) m1, .failure (some s2) m2,
       .failure (some s3) m3, .failure (some s4) m4] =
      { result := .error (.httpError (some s4) m4),
        waits := [1000, 2000, 4000, 8000], refreshes := 0 } := by
  rw [runRequest_retryable_step _ _ _ _ _ h0 (by omega),
    runRequest_retryable_step _ _ _ _ _ h1 (by omega),
    runRequest_retryable_step _ _ _ _ _ h2 (by omega),
    runRequest_retryable_step _ _ _ _ _ h3 (by omega),
    runRequest_budget_exhausted _ _ _ _ h4]
  rfl

theorem C3_backoff_retry_budget_witness :
    runRequest true 0
      [.failure (some 429) "Too Many Requests", .failure (some 429) "Too Many Requests",
       .failure (some 429) "Too Many Requests", .failure (some 429) "Too Many Requests",
       .failure (some 429) "Too Many Requests"] =
      { result := .error (.httpError (some 429) "Too Many Requests"),
        waits := [1000, 2000, 4000, 8000], refreshes := 0 } :=
  C3_backoff_retry_budget true 429 429 429 429 429
    "Too Many Requests" "Too Many Requests" "Too Many Requests" "Too Many Requests"
    "Too Many Requests" (Or.inl rfl) (Or.inl rfl) (Or.inl rfl) (Or.inl rfl) (Or.inl rfl)

/-- C4: a 401 on an authenticated request below attempt 2 forces one session
refresh and retries the same request at attempt+1; a 401 at attempt 2 (or
later) is surfaced with no refresh and no wait.  The forced refresh is
`handleUnauthorized`, which refreshes unconditionally — unlike
`ensureAuthenticated`, which skips the refresh whenever the session is not
within the 60 s proactive-expiry window. -/
theorem C4_unauthorized_refresh_retry (a1 a2 : Nat) (msg : String)
    (rest : List HttpOutcome) (tokens : AuthTokens) (now : Int)
    (ha1 : a1 < 2) (ha2 : 2 ≤ a2) (hfresh : expiresSoon tokens now = false) :
    runRequest true a1 (.failure (some 401) msg :: rest) =
      { runRequest true (a1 + 1) rest with
        refreshes := (runRequest true (a1 + 1) rest).refreshes + 1 } ∧
    runRequest true a2 (.failure (some 401) msg :: rest) =
      { result := .error (.httpError (some 401) msg), waits := [], refreshes := 0 } ∧
    handleUnauthorizedRefreshes (some tokens) = 1 ∧
    ensureAuthenticatedRefreshes (some tokens) now = 0 := by
  refine ⟨?_, ?_, rfl, ?_⟩
  · rw [runRequest]
    rw [if_pos (by simp [ha1])]
  · rw [runRequest]
    rw [if_neg (by omega), if_neg (by simp)]
  · simp [ensureAuthenticatedRefreshes, hfresh]

theorem C4_unauthorized_refresh_retry_witness :
    runRequest true 0 [.failure (some 401) "unauthorized", .success 7] =
      { runRequest true 1 [.success 7] with
        refreshes := (runRequest true 1 [.success 7]).refreshes + 1 } ∧
    runRequest true 2 [.failure (some 401) "unauthorized", .success 7] =
      { result := .error (.httpError (some 401) "unauthorized"),
        waits := [], refreshes := 0 } ∧
    handleUnauthorizedRefreshes (some standardLifetimeTokens) = 1 ∧
    ensureAuthenticatedRefreshes (some standardLifetimeTokens) 0 = 0 :=
  C4_unauthorized_refresh_retry 0 2 "unauthorized" [.success 7]
    standardLifetimeTokens 0 (by decide) (by decide) (by decide)

/-- C10: on a refresh, a response that carries an access token but omits the
`refreshToken` (and `userId`) fields yields a stored session retaining the
previous session's `refreshToken` and `userId`, and the cache is replaced
with it; a response with neither `uToken` nor `accessToken` throws and leaves
the cached session untouched; and with no previous session, a response with
no `refreshToken` makes `parseTokens` throw. -/
theorem C10_refresh_preserves_previous_fields (previous : AuthTokens)
    (r1 r2 r3 : LoginResponse) (now : Int) (a : String) (tk : AuthTokens)
    (hprev : previous.refreshToken.isEmpty = false)
    (h1a : r1.uToken = some a) (h1b : a.isEmpty = false)
    (h1c : r1.refreshToken = none) (h1d : r1.userId = none) (h1e : r1.userNestedId = none)
    (h1ok : (refreshModel previous r1 now).1 = .ok tk)
    (h2a : r2.uToken = none) (h2b : r2.accessToken = none)
    (h3 : r3.refreshToken = none) :
    tk.refreshToken = previous.refreshToken ∧
    tk.userId = previous.userId ∧
    (refreshModel previous r1 now).2 = tk ∧
    refreshModel previous r2 now = (.error "Comfort Cloud authentication failed", previous) ∧
    parseTokens r3 none now = .error "Comfort Cloud authentication failed" := by
  set expected : AuthTokens :=
    { accessToken := a, refreshToken := previous.refreshToken, userId := previous.userId,
      expiresAt := now + max ((r1.expiresIn.orElse fun _ => r1.expires_in).getD 3600 - 60) 60 * 1000 }
    with hexpected
  have hparse1 : parseTokens r1 (some previous) now = .ok expected := by
    simp only [parseTokens, h1a, h1c, h1d, h1e, Option.orElse, Option.map, Option.getD]
    rw [if_neg (by simp [h1b, hprev])]
    rfl
  have hmodel1 : refreshModel previous r1 now = (.ok expected, expected) := by
    rw [refreshModel, hparse1]
  have htk : tk = expected := by
    rw [hmodel1] at h1ok
    exact (Except.ok.injEq _ _).mp h1ok.symm
  have hparse2 : parseTokens r2 (some previous) now =
      .error "Comfort Cloud authentication failed" := by
    simp [parseTokens, h2a, h2b, Option.orElse]
  have hparse3 : parseTokens r3 none now =
      .error "Comfort Cloud authentication failed" := by
    simp [parseTokens, h3, Option.orElse, Option.map]
  refine ⟨by rw [htk], by rw [htk], ?_, ?_, hparse3⟩
  · rw [hmodel1, htk]
  · rw [refreshModel, hparse2]

def previousTokensExample : AuthTokens :=
  { accessToken := "oldAccess", refreshToken := "oldRefresh", expiresAt := 1000,
    userId := "user-7" }

/-- A refresh response carrying only a fresh access token. -/
def tokenOnlyResponse : LoginResponse := { uToken := some "newAccess" }

/-- A refresh response carrying no access token at all. -/
def noTokenResponse : LoginResponse := { expiresIn := some 3600 }

def refreshedTokensExample : AuthTokens :=
  { accessToken := "newAccess", refreshToken := "oldRefresh", expiresAt := 3540000,
    userId := "user-7" }

/-- `process` never pushes `activeCount` past `maxConcurrent`: it only starts
an operation after checking `activeCount < maxConcurrent`. -/
theorem process_activeCount_le (cfg : RateLimiterConfig) (s : RateLimiterState) (now : Int)
    (h : s.activeCount ≤ cfg.maxConcurrent) :
    (process cfg s now).1.activeCount ≤ cfg.maxConcurrent := by
  unfold process
  split
  · exact h
  · split
    · exact h
    · split
      · exact h
      · rename_i hlt _
        show s.activeCount + 1 ≤ cfg.maxConcurrent
        omega

theorem schedule_activeCount_le (cfg : RateLimiterConfig) (s : RateLimiterState)
    (op : Nat) (now : Int) (h : s.activeCount ≤ cfg.maxConcurrent) :
    (schedule cfg s op now).1.activeCount ≤ cfg.maxConcurrent := by
  unfold schedule
  split
  · exact h
  · exact process_activeCount_le cfg _ now h

theorem complete_activeCount_le (cfg : RateLimiterConfig) (s : RateLimiterState)
    (now : Int) (h : s.activeCount ≤ cfg.maxConcurrent) :
    (complete cfg s now).1.activeCount ≤ cfg.maxConcurrent := by
  unfold complete
  exact process_activeCount_le cfg _ now (Nat.le_trans (Nat.sub_le _ _) h)

/-- C6: in every state the rate limiter can reach, at most `maxConcurrent`
operations are running (`activeCount ≤ maxConcurrent` is preserved by every
admission and completion step), and whenever `process` admits an operation it
admits the head of the FIFO queue, leaving exactly the tail queued. -/
theorem C6_concurrency_bound_fifo (cfg : RateLimiterConfig) (s : RateLimiterState)
    (now : Int) (op : Nat)
    (hreach : RateLimiterReachable cfg s) (_hk : 1 ≤ cfg.maxConcurrent) :
    s.activeCount ≤ cfg.maxConcurrent ∧
    ((process cfg s now).2 = some op →
      s.queue.head? = some op ∧ (process cfg s now).1.queue = s.queue.tail) := by
  constructor
  · induction hreach with
    | init => exact Nat.zero_le _
    | schedule s' op' now' _ ih => exact schedule_activeCount_le cfg s' op' now' ih
    | timerFire s' now' _ ih => exact process_activeCount_le cfg s' now' ih
    | complete s' now' _ _ ih => exact complete_activeCount_le cfg s' now' ih
  · intro hstart
    unfold process at hstart ⊢
    split at hstart
    · cases hstart
    · split at hstart
      · cases hstart
      · split at hstart
        · cases hstart
        · rename_i a rest heq _ _
          obtain rfl : a = op := by cases hstart; rfl
          rw [heq]
          refine ⟨rfl, ?_⟩
          rw [if_neg (by assumption), if_neg (by assumption)]
          rfl

/-- `maxConcurrent = 1`, `minInterval = 0`, no queue bound. -/
def rlCfgExample : RateLimiterConfig := mkRateLimiter (some 1) (some 0) none

/-- Schedule operation 5 and then operation 7 at time 100 from the initial
state: operation 5 starts at once, operation 7 stays queued behind the
concurrency ceiling. -/
def rlStateExample : RateLimiterState :=
  (schedule rlCfgExample (schedule rlCfgExample initialRateLimiterState 5 100).1 7 100).1

theorem C6_concurrency_bound_fifo_witness :
    rlStateExample.activeCount ≤ rlCfgExample.maxConcurrent ∧
    ((process rlCfgExample rlStateExample 100).2 = some 7 →
      rlStateExample.queue.head? = some 7 ∧
      (process rlCfgExample rlStateExample 100).1.queue = rlStateExample.queue.tail) :=
  C6_concurrency_bound_fifo rlCfgExample rlStateExample 100 7
    (RateLimiterReachable.schedule _ 7 100
      (RateLimiterReachable.schedule _ 5 100 RateLimiterReachable.init))
    (by decide)

/-- C7: with a positive `maxQueueSize` configured and the queue already
holding `maxQueueSize` entries, `schedule` fails with the queue-full error
before enqueuing anything: the state — in particular the queue — is returned
unchanged and the operation never starts. -/
theorem C7_queue_full_rejected (cfg : RateLimiterConfig) (s : RateLimiterState)
    (op : Nat) (now : Int) (m : Nat)
    (hm : cfg.maxQueueSize = some m) (hm1 : 1 ≤ m) (hlen : s.queue.length = m) :
    schedule cfg s op now = (s, .queueFull) := by
  have hfull : queueFullCheck cfg s = true := by
    unfold queueFullCheck
    rw [hm]
    simp
    omega
  unfold schedule
  rw [if_pos hfull]

def rlBoundedCfgExample : RateLimiterConfig := mkRateLimiter none none (some 1)

def rlFullStateExample : RateLimiterState := { queue := [3], activeCount := 0, lastStart := 0 }

theorem C7_queue_full_rejected_witness :
    schedule rlBoundedCfgExample rlFullStateExample 9 100 =
      (rlFullStateExample, .queueFull) :=
  C7_queue_full_rejected rlBoundedCfgExample rlFullStateExample 9 100 1 rfl
    (by decide) (by decide)

/-- C9 (implicit): when `maxQueueSize` is unset or 0, the queue-full check is
skipped entirely — `schedule` never fails with the queue-full error, and in
particular while the concurrency ceiling is saturated every call grows the
queue by one more entry, whatever its current length. -/
theorem C9_no_queue_bound_when_unset (cfg : RateLimiterConfig) (s : RateLimiterState)
    (op : Nat) (now : Int)
    (h : cfg.maxQueueSize = none ∨ cfg.maxQueueSize = some 0) :
    (schedule cfg s op now).2 ≠ .queueFull ∧
    (cfg.maxConcurrent ≤ s.activeCount →
      schedule cfg s op now = ({ s with queue := s.queue ++ [op] }, .enqueued none)) := by
  have hq : queueFullCheck cfg s = false := by
    rcases h with h | h <;> simp [queueFullCheck, h]
  constructor
  · unfold schedule
    rw [if_neg (by simp [hq])]
    simp
  · intro hsat
    unfold schedule process
    rw [if_neg (by simp [hq])]
    dsimp only
    cases hc : s.queue ++ [op] with
    | nil => simp at hc
    | cons a t => simp [hsat]

def rlSaturatedStateExample : RateLimiterState :=
  { queue := [1, 2, 3], activeCount := 2, lastStart := 0 }

theorem C9_no_queue_bound_when_unset_witness :
    (schedule (mkRateLimiter none none none) rlSaturatedStateExample 9 100).2 ≠ .queueFull ∧
    ((mkRateLimiter none none none).maxConcurrent ≤ rlSaturatedStateExample.activeCount →
      schedule (mkRateLimiter none none none) rlSaturatedStateExample 9 100 =
        ({ rlSaturatedStateExample with queue := rlSaturatedStateExample.queue ++ [9] },
          .enqueued none)) :=
  C9_no_queue_bound_when_unset (mkRateLimiter none none none) rlSaturatedStateExample 9 100
    (Or.inl rfl)

/-- A scheduler state that is stopped with no pending timers. -/
def stoppedNoTimers (s : PollSchedulerState) : Prop :=
  s.running = false ∧ ∀ t ∈ s.tasks, t.timeout = none

/-- Once the scheduler is stopped with no pending timers, no event can start
a task action, and the state stays stopped with no pending timers. -/
theorem stepPoll_stopped (jitter : Nat) (s : PollSchedulerState) (e : PollEvent)
    (h : stoppedNoTimers s) :
    stoppedNoTimers (stepPoll jitter s e).1 ∧ (stepPoll jitter s e).2 = 0 := by
  obtain ⟨hrun, htym⟩ := h
  cases e with
  | timerFire tid now =>
      simp only [stepPoll]
      cases hf : s.tasks.find? fun t => t.id = tid with
      | none => exact ⟨⟨hrun, htym⟩, rfl⟩
      | some task =>
          have hnone : task.timeout = none := htym task (List.mem_of_find?_eq_some hf)
          dsimp only
          rw [hnone]
          exact ⟨⟨hrun, htym⟩, rfl⟩
  | finishInFlight tid rand =>
      simp only [stepPoll]
      split
      · dsimp only
        rw [if_neg (by simp [hrun])]
        exact ⟨⟨hrun, htym⟩, rfl⟩
      · exact ⟨⟨hrun, htym⟩, rfl⟩

/-- A stopped scheduler with no pending timers performs zero executions over
any sequence of further events. -/
theorem runPollEvents_stopped (jitter : Nat) (events : List PollEvent)
    (s : PollSchedulerState) (h : stoppedNoTimers s) :
    (runPollEvents jitter s events).2 = 0 := by
  induction events generalizing s with
  | nil => rfl
  | cons e es ih =>
      obtain ⟨h1, h2⟩ := stepPoll_stopped jitter s e h
      show (stepPoll jitter s e).2 + (runPollEvents jitter (stepPoll jitter s e).1 es).2 = 0
      rw [h2, ih _ h1]

/-- The `finally` of an in-flight execution on a stopped scheduler does not
reschedule: the tasks (in particular their timers) are left untouched. -/
theorem stepPoll_finish_stopped (jitter : Nat) (s : PollSchedulerState)
    (tid : String) (rand : Nat) (h : s.running = false) :
    (stepPoll jitter s (.finishInFlight tid rand)).1.tasks = s.tasks := by
  simp only [stepPoll]
  split
  · dsimp only
    rw [if_neg (by simp [h])]
  · rfl

/-- `stop()` on a running scheduler. -/
theorem stopPoll_running (s : PollSchedulerState) (hrun : s.running = true) :
    stopPoll s = { running := false
                   tasks := s.tasks.map fun t => { t with timeout := none }
                   inFlight := s.inFlight } := by
  unfold stopPoll
  rw [if_neg (by simp [hrun])]

/-- C8: after `stop()` on a running scheduler every task's pending timer is
cancelled and the scheduler is stopped; advancing time through any sequence
of timer fires and in-flight completions starts zero further task
executions; and an action in flight at the moment of `stop()` completes
without rescheduling (its `finally` leaves every task — and so every timer —
untouched). -/
theorem C8_stop_cancels_all_and_halts (jitter : Nat) (s : PollSchedulerState)
    (events : List PollEvent) (t : ScheduledTask) (tid : String) (rand : Nat)
    (hrun : s.running = true) (ht : t ∈ (stopPoll s).tasks) :
    t.timeout = none ∧
    (stopPoll s).running = false ∧
    (runPollEvents jitter (stopPoll s) events).2 = 0 ∧
    (stepPoll jitter (stopPoll s) (.finishInFlight tid rand)).1.tasks = (stopPoll s).tasks := by
  have hstop := stopPoll_running s hrun
  have hstopped : stoppedNoTimers (stopPoll s) := by
    rw [hstop]
    refine ⟨rfl, ?_⟩
    intro u hu
    obtain ⟨a, _, rfl⟩ := List.mem_map.mp hu
    rfl
  refine ⟨?_, hstopped.1, runPollEvents_stopped jitter events _ hstopped, ?_⟩
  · exact hstopped.2 t ht
  · exact stepPoll_finish_stopped jitter _ tid rand hstopped.1

def pollStateExample : PollSchedulerState :=
  { running := true
    tasks := [{ id := "essential", interval := 75000, timeout := some 75000, lastRun := none }]
    inFlight := ["essential"] }

def pollEventsExample : List PollEvent :=
  [.timerFire "essential" 100, .finishInFlight "essential" 0]

theorem C8_stop_cancels_all_and_halts_witness :
    ({ id := "essential", interval := 75000, timeout := none,
       lastRun := none } : ScheduledTask).timeout = none ∧
    (stopPoll pollStateExample).running = false ∧
    (runPollEvents 0 (stopPoll pollStateExample) pollEventsExample).2 = 0 ∧
    (stepPoll 0 (stopPoll pollStateExample)
      (.finishInFlight "essential" 0)).1.tasks = (stopPoll pollStateExample).tasks :=
  C8_stop_cancels_all_and_halts 0 pollStateExample pollEventsExample
    { id := "essential", interval := 75000, timeout := none, lastRun := none }
    "essential" 0 rfl (by decide)

theorem C10_refresh_preserves_previous_fields_witness :
    refreshedTokensExample.refreshToken = previousTokensExample.refreshToken ∧
    refreshedTokensExample.userId = previousTokensExample.userId ∧
    (refreshModel previousTokensExample tokenOnlyResponse 0).2 = refreshedTokensExample ∧
    refreshModel previousTokensExample noTokenResponse 0 =
      (.error "Comfort Cloud authentication failed", previousTokensExample) ∧
    parseTokens tokenOnlyResponse none 0 = .error "Comfort Cloud authentication failed" :=
  C10_refresh_preserves_previous_fields previousTokensExample tokenOnlyResponse
    noTokenResponse tokenOnlyResponse 0 "newAccess" refreshedTokensExample
    rfl rfl rfl rfl rfl rfl (by decide) rfl rfl rfl

end ComfortCloud
